import Mathlib

/-!
Verification development for `src/transaction/uniswap_transaction.py`
(class `UniswapTransaction`).  The Python source is shallowly embedded:
the external collaborators (pool manager, per-pool swap simulator,
multicall payload ABI decoder) are modelled as function-valued records,
the dictionaries of the source become structures, speculative tuple
unpacking becomes a tagged sum indexed by arity, and raised exceptions
become an `Except` error channel.  Logging (`print`, the `silent` flag)
is dropped except where it has a semantic effect (reading an unbound
local in a verbose block).  The two in-source loops without a static
bound (the encoded-path byte decoder and the multicall recursion) are
given explicit fuel; the distinguished error `outOfFuel` marks a run
that does not terminate within the supplied fuel.
-/

namespace Degenbot

/-- Token addresses, rendered as hex strings. -/
abbrev Addr := String

/-- An `Erc20Token` helper object.  The helper manager in the source
memoizes one object per address ("calls to `get_erc20token` will return
the previously-created helper"), so the object-identity comparisons
(`token_in is v2_pool.token1`) of the source coincide with equality of
addresses, which is how they are embedded here. -/
structure Erc20Token where
  address : Addr
deriving DecidableEq, Repr

/-- The reserve fields of a V2 pool `state` dictionary. -/
structure V2PoolState where
  reserves_token0 : Int
  reserves_token1 : Int
deriving DecidableEq, Repr

/-- A resolved V2 liquidity pool: its two token helpers and its current
(authoritative) state. -/
structure V2Pool where
  token0 : Erc20Token
  token1 : Erc20Token
  state : V2PoolState
deriving DecidableEq, Repr

/-- Exceptions observable from the simulation core.  `transactionError`
embeds `TransactionError`, `valueError` embeds `ValueError`,
`nameError` embeds Python `NameError` (reading an unbound local),
`typeError` embeds Python `TypeError` (iterating/indexing `None`), and
`outOfFuel` marks a source loop that did not terminate within the
modelled fuel. -/
inductive SimError where
  | transactionError (msg : String)
  | valueError (msg : String)
  | nameError (msg : String)
  | typeError (msg : String)
  | outOfFuel
deriving DecidableEq, Repr

/-- External collaborators of the V2 drivers: the pool manager
(`self.v2_pool_manager.get_pool`; `none` models `LiquidityPoolError`)
and the per-pool simulator `pool.simulate_swap`, split by which keyword
argument pair the source passes (`token_in`/`token_in_quantity` versus
`token_out`/`token_out_quantity`).  The `swap_info` component of the
simulator result is never read by the V2 drivers and is omitted. -/
structure V2Env where
  get_pool : Addr × Addr → Option V2Pool
  simulate_swap_exact_in : V2Pool → Erc20Token → Int → V2PoolState
  simulate_swap_exact_out : V2Pool → Erc20Token → Int → V2PoolState

/-- `itertools.pairwise`: consecutive pairs of a list. -/
def pairwise : List Addr → List (Addr × Addr)
  | a :: b :: rest => (a, b) :: pairwise (b :: rest)
  | _ => []

/-- The pool-resolution loop shared by both V2 drivers: resolve a pool
for every consecutive token pair, converting a resolution failure into
`TransactionError` (the exact-out copy in the source differs only in
the capitalization of its message, which is not modelled). -/
def resolve_pools (env : V2Env) : List (Addr × Addr) → Except SimError (List V2Pool)
  | [] => .ok []
  | pair :: rest =>
    match env.get_pool pair with
    | none => .error (.transactionError
        ("LiquidityPool could not be build for token pair " ++ pair.1 ++ " - " ++ pair.2))
    | some pool => (resolve_pools env rest).map (pool :: ·)

/-- Trace record for one V2 hop: the loop-local variables of one
iteration of the driver loop together with the pair
`(v2_pool, future_state)` that the source appends to
`future_pool_states`. -/
structure V2Hop where
  pool : V2Pool
  token_in : Erc20Token
  token_in_quantity : Int
  token_out : Erc20Token
  token_out_quantity : Int
  future_state : V2PoolState
deriving DecidableEq, Repr

/-- The per-pool loop of `v2_swap_exact_in`, processing the resolved
pools in path order with the running input token and quantity.  The
output quantity is whichever reserve decreased (`token0` checked
first); if neither decreased the source raises
`ValueError("Swap direction could not be identified")`. -/
def v2_exact_in_loop (env : V2Env) :
    List V2Pool → Erc20Token → Int → Except SimError (List V2Hop)
  | [], _, _ => .ok []
  | pool :: rest, token_in, token_in_quantity =>
    let token_out := if token_in = pool.token1 then pool.token0 else pool.token1
    let current_state := pool.state
    let future_state := env.simulate_swap_exact_in pool token_in token_in_quantity
    if future_state.reserves_token0 < current_state.reserves_token0 then
      let token_out_quantity := current_state.reserves_token0 - future_state.reserves_token0
      (v2_exact_in_loop env rest token_out token_out_quantity).map
        (⟨pool, token_in, token_in_quantity, token_out, token_out_quantity, future_state⟩ :: ·)
    else if future_state.reserves_token1 < current_state.reserves_token1 then
      let token_out_quantity := current_state.reserves_token1 - future_state.reserves_token1
      (v2_exact_in_loop env rest token_out token_out_quantity).map
        (⟨pool, token_in, token_in_quantity, token_out, token_out_quantity, future_state⟩ :: ·)
    else
      .error (.valueError "Swap direction could not be identified")

/-- `v2_swap_exact_in`, keeping the full per-hop trace.  The first hop
uses `self.value` when `unwrapped_input` is set, otherwise
`params["amountIn"]`; the initial input token is `params["path"][0]`. -/
def v2_swap_exact_in_hops (env : V2Env) (path : List Addr) (amountIn : Int)
    (tx_value : Int) (unwrapped_input : Bool) : Except SimError (List V2Hop) := do
  let pools ← resolve_pools env (pairwise path)
  let token_in : Erc20Token := ⟨path.headD ""⟩
  let swap_in_quantity := if unwrapped_input then tx_value else amountIn
  v2_exact_in_loop env pools token_in swap_in_quantity

/-- `v2_swap_exact_in` as the source returns it: the list of
`(v2_pool, future_state)` pairs. -/
def v2_swap_exact_in (env : V2Env) (path : List Addr) (amountIn : Int)
    (tx_value : Int) (unwrapped_input : Bool) :
    Except SimError (List (V2Pool × V2PoolState)) :=
  (v2_swap_exact_in_hops env path amountIn tx_value unwrapped_input).map
    (List.map fun hp => (hp.pool, hp.future_state))

/-- The per-pool loop of `v2_swap_exact_out`, processing the resolved
pools in reverse path order.  Note that the source computes
`token_out_quantity = swap_out_quantity if i == 0 else token_out_quantity`,
so the quantity passed to the simulator is the same original
`amountOut` at every iteration (the derived `token_in_quantity` is
computed but never threaded into the next iteration); only the token
bookkeeping (`token_out = token_in` of the previous iteration) is
threaded.  The derived input is whichever reserve increased (`token0`
checked first); if neither increased the source raises `ValueError`. -/
def v2_exact_out_loop (env : V2Env) :
    List V2Pool → Erc20Token → Int → Except SimError (List V2Hop)
  | [], _, _ => .ok []
  | pool :: rest, token_out, token_out_quantity =>
    let token_in := if token_out = pool.token1 then pool.token0 else pool.token1
    let current_state := pool.state
    let future_state := env.simulate_swap_exact_out pool token_out token_out_quantity
    if future_state.reserves_token0 > current_state.reserves_token0 then
      let token_in_quantity := future_state.reserves_token0 - current_state.reserves_token0
      (v2_exact_out_loop env rest token_in token_out_quantity).map
        (⟨pool, token_in, token_in_quantity, token_out, token_out_quantity, future_state⟩ :: ·)
    else if future_state.reserves_token1 > current_state.reserves_token1 then
      let token_in_quantity := future_state.reserves_token1 - current_state.reserves_token1
      (v2_exact_out_loop env rest token_in token_out_quantity).map
        (⟨pool, token_in, token_in_quantity, token_out, token_out_quantity, future_state⟩ :: ·)
    else
      .error (.valueError "Swap direction could not be identified")

/-- `v2_swap_exact_out`, keeping the full per-hop trace.  The pools are
processed reversed (`pool_objects[::-1]`); the initial output token is
`params["path"][-1]` and the quantity is `params["amountOut"]`.  When
`unwrapped_input` is set the source binds
`swap_in_quantity = self.value`, but that local is never read again
(the `msg.value too low for swap` check is commented out in the
source). -/
def v2_swap_exact_out_hops (env : V2Env) (path : List Addr) (amountOut : Int)
    (tx_value : Int) (unwrapped_input : Bool) : Except SimError (List V2Hop) := do
  let pools ← resolve_pools env (pairwise path)
  let token_out : Erc20Token := ⟨path.getLastD ""⟩
  let _swap_in_quantity : Option Int := if unwrapped_input then some tx_value else none
  v2_exact_out_loop env pools.reverse token_out amountOut

/-- `v2_swap_exact_out` as the source returns it: the list of
`(pool, future_state)` pairs, in reverse-traversal order. -/
def v2_swap_exact_out (env : V2Env) (path : List Addr) (amountOut : Int)
    (tx_value : Int) (unwrapped_input : Bool) :
    Except SimError (List (V2Pool × V2PoolState)) :=
  (v2_swap_exact_out_hops env path amountOut tx_value unwrapped_input).map
    (List.map fun hp => (hp.pool, hp.future_state))

/-- The opaque predicted-state dictionary returned for a V3 pool by the
external simulator; the core never inspects it, so it is modelled as an
abstract tag. -/
structure V3PoolState where
  tag : Nat
deriving DecidableEq, Repr

/-- An opaque resolved V3 pool handle. -/
structure V3Pool where
  tag : Nat
deriving DecidableEq, Repr

/-- The `swap_info` dictionary returned by the V3 simulator: the two
signed per-token reserve deltas, signed from the pool's own point of
view (positive means the token entered the pool). -/
structure V3SwapInfo where
  amount0_delta : Int
  amount1_delta : Int
deriving DecidableEq, Repr

/-- External collaborators of the V3 single-hop drivers: the pool
manager (`self.v3_pool_manager.get_pool` keyed by token pair and fee;
`none` models `ManagerError`/`LiquidityPoolError`) and the per-pool
simulator `v3_pool.simulate_swap`, split by keyword-argument shape.
`none` from the simulator models `EVMRevertError`.  The exact-out
variant also receives the optional `sqrt_price_limit`. -/
structure V3Env where
  get_pool : Addr → Addr → Nat → Option V3Pool
  simulate_swap_exact_in : V3Pool → Addr → Int → Option (V3SwapInfo × V3PoolState)
  simulate_swap_exact_out : V3Pool → Addr → Int → Option Int → Option (V3SwapInfo × V3PoolState)

/-- The three positional tuple shapes the V3 single-hop drivers accept
for `params["params"]`, disambiguated by arity exactly as the source's
sequence of speculative tuple unpacks does: the 8-field Router ABI
shape (with `deadline`), the 7-field Router2 ABI shape, and the minimal
4-field hand-crafted shape built by the encoded-path driver.  `amount`
is `amountIn` for the exact-in driver and `amountOut` for the exact-out
driver; `amountBound` is `amountOutMinimum` respectively
`amountInMaximum`. -/
inductive V3SingleParams where
  | routerABI (tokenIn tokenOut : Addr) (fee : Nat) (recipient : Addr) (deadline : Int)
      (amount : Int) (amountBound : Int) (sqrtPriceLimitX96 : Int)
  | router2ABI (tokenIn tokenOut : Addr) (fee : Nat) (recipient : Addr)
      (amount : Int) (amountBound : Int) (sqrtPriceLimitX96 : Int)
  | handCrafted (tokenIn tokenOut : Addr) (fee : Nat) (amount : Int)
deriving DecidableEq, Repr

def V3SingleParams.tokenIn : V3SingleParams → Addr
  | .routerABI tIn _ _ _ _ _ _ _ => tIn
  | .router2ABI tIn _ _ _ _ _ _ => tIn
  | .handCrafted tIn _ _ _ => tIn

def V3SingleParams.tokenOut : V3SingleParams → Addr
  | .routerABI _ tOut _ _ _ _ _ _ => tOut
  | .router2ABI _ tOut _ _ _ _ _ => tOut
  | .handCrafted _ tOut _ _ => tOut

def V3SingleParams.fee : V3SingleParams → Nat
  | .routerABI _ _ f _ _ _ _ _ => f
  | .router2ABI _ _ f _ _ _ _ => f
  | .handCrafted _ _ f _ => f

def V3SingleParams.amount : V3SingleParams → Int
  | .routerABI _ _ _ _ _ a _ _ => a
  | .router2ABI _ _ _ _ a _ _ => a
  | .handCrafted _ _ _ a => a

/-- `amountInMaximum` (for exact-out) or `amountOutMinimum` (for
exact-in): bound by the 8- and 7-field unpacks, left at its initial
`None` by the minimal 4-field shape. -/
def V3SingleParams.amountBound : V3SingleParams → Option Int
  | .routerABI _ _ _ _ _ _ b _ => some b
  | .router2ABI _ _ _ _ _ b _ => some b
  | .handCrafted _ _ _ _ => none

/-- `sqrtPriceLimitX96`: bound by the 8- and 7-field unpacks, left at
its initial `None` by the minimal 4-field shape. -/
def V3SingleParams.sqrtPriceLimitX96 : V3SingleParams → Option Int
  | .routerABI _ _ _ _ _ _ _ s => some s
  | .router2ABI _ _ _ _ _ _ s => some s
  | .handCrafted _ _ _ _ => none

/-- `v3_swap_exact_in`: resolve the pool by (tokenIn, tokenOut, fee),
simulate with `token_in`/`token_in_quantity`, and return the single
`(v3_pool, final_state)` entry.  Resolution and `EVMRevertError`
failures become `TransactionError`. -/
def v3_swap_exact_in (env : V3Env) (p : V3SingleParams) :
    Except SimError (List (V3Pool × V3PoolState)) :=
  match env.get_pool p.tokenIn p.tokenOut p.fee with
  | none => .error (.transactionError "Could not get pool (via tokens)")
  | some v3_pool =>
    match env.simulate_swap_exact_in v3_pool p.tokenIn p.amount with
    | none => .error (.transactionError "V3 operation could not be simulated")
    | some (_swap_info, final_state) => .ok [(v3_pool, final_state)]

/-- The derivation of `amountIn` in `v3_swap_exact_out`:
`max(swap_info["amount0_delta"], swap_info["amount1_delta"])` (the
source comments "swap input is positive from the POV of the pool"). -/
def v3_amountIn (swap_info : V3SwapInfo) : Int :=
  max swap_info.amount0_delta swap_info.amount1_delta

/-- Modelled from the spec: section 4.4 says the implied input quantity
is derived as "the larger in magnitude of the two signed reserve deltas
returned by the simulator".  Stated here only to be compared against
the source's derivation `v3_amountIn`. -/
def v3_amountIn_spec_larger_magnitude (swap_info : V3SwapInfo) : Int :=
  if swap_info.amount1_delta.natAbs ≤ swap_info.amount0_delta.natAbs then
    swap_info.amount0_delta
  else
    swap_info.amount1_delta

/-- `v3_swap_exact_out`: resolve the pool by (tokenIn, tokenOut, fee),
simulate with `token_out`/`token_out_quantity`/`sqrt_price_limit`,
derive `amountIn` via `v3_amountIn`, and apply the source's slippage
check exactly as written: it raises `TransactionError` when
`amountInMaximum` is truthy (bound and non-zero) and
`amountIn < amountInMaximum`. -/
def v3_swap_exact_out (env : V3Env) (p : V3SingleParams) :
    Except SimError (List (V3Pool × V3PoolState)) :=
  match env.get_pool p.tokenIn p.tokenOut p.fee with
  | none => .error (.transactionError "Could not get pool (via tokens)")
  | some v3_pool =>
    match env.simulate_swap_exact_out v3_pool p.tokenOut p.amount p.sqrtPriceLimitX96 with
    | none => .error (.transactionError "V3 operation could not be simulated")
    | some (swap_info, final_state) =>
      let amountIn := v3_amountIn swap_info
      match p.amountBound with
      | some amountInMaximum =>
        if amountInMaximum ≠ 0 ∧ amountIn < amountInMaximum then
          .error (.transactionError "amountIn < amountOutMin")
        else
          .ok [(v3_pool, final_state)]
      | none => .ok [(v3_pool, final_state)]

/-- One decoded segment of an encoded V3 path: a 20-byte address
rendered as hex, or a 3-byte fee parsed as a big-endian integer. -/
inductive PathSeg where
  | address (a : Addr)
  | fee (f : Nat)
deriving DecidableEq, Repr

/-- Lowercase hex digit for a value below 16 (`0`-`9`, `a`-`f`). -/
def hexDigitChar (n : Nat) : Char :=
  if n < 10 then Char.ofNat (48 + n) else Char.ofNat (87 + n)

/-- Two lowercase hex digits of one byte, as `bytes.hex()` renders it. -/
def byteHex (b : Nat) : String :=
  String.mk [hexDigitChar (b / 16 % 16), hexDigitChar (b % 16)]

/-- `chunk.hex()` for a byte slice. -/
def bytesHex (bs : List Nat) : String :=
  String.join (bs.map byteHex)

/-- `int(chunk.hex(), 16)` for a byte slice: its big-endian value. -/
def bytesBE (bs : List Nat) : Nat :=
  bs.foldl (fun acc b => acc * 256 + b) 0

/-- The encoded-path decoding loop of the source
(`for byte_length in itertools.cycle((20, 3))`), with explicit fuel
counting loop iterations.  State: current cursor `path_pos`, whether
the cycle currently yields 20 (`isAddr`) or 3, and the accumulated
decoded list.  The loop breaks only when the cursor lands exactly on
the end of the byte sequence; a read happens only when a full chunk
remains, but the cursor advances by the chunk width regardless.
`none` means the fuel ran out before the loop broke. -/
def decode_path_loop (path : List Nat) :
    Nat → Nat → Bool → List PathSeg → Option (List PathSeg)
  | 0, _, _, _ => none
  | fuel + 1, path_pos, isAddr, acc =>
    if path_pos = path.length then
      some acc
    else
      let byte_length := if isAddr then 20 else 3
      let acc' :=
        if path.length ≥ path_pos + byte_length then
          let chunk := (path.drop path_pos).take byte_length
          if isAddr then acc ++ [PathSeg.address (bytesHex chunk)]
          else acc ++ [PathSeg.fee (bytesBE chunk)]
        else acc
      decode_path_loop path fuel (path_pos + byte_length) (!isAddr) acc'

/-- The path decoder run with a caller-supplied fuel. -/
def decode_path_with_fuel (path : List Nat) (fuel : Nat) : Option (List PathSeg) :=
  decode_path_loop path fuel 0 true []

/-- The path decoder with fuel `path.length + 2`.  A terminating run of
the source loop breaks after at most `2 * (path.length / 23) + 2`
iterations, so this fuel is sufficient for every terminating run:
`none` here means the source loop runs forever on this input. -/
def decode_path (path : List Nat) : Option (List PathSeg) :=
  decode_path_with_fuel path (path.length + 2)

/-- The source indexes the decoded path list directly where it expects
an address; decoder outputs always alternate starting with an address,
so the `fee` fallback (the raw int passed through, rendered decimally)
is unreachable for lists produced by `decode_path`. -/
def PathSeg.addrValue : PathSeg → Addr
  | .address a => a
  | .fee f => toString f

/-- Counterpart of `PathSeg.addrValue` for positions the source reads
as a fee; the `address` fallback is unreachable for decoder outputs. -/
def PathSeg.feeValue : PathSeg → Nat
  | .fee f => f
  | .address _ => 0

/-- The consecutive (position, position+1, position+2) triples visited
by `for token_pos in range(0, len(decoded) - 2, 2)`. -/
def path_triples : List PathSeg → List (PathSeg × PathSeg × PathSeg)
  | a :: b :: c :: rest => (a, b, c) :: path_triples (c :: rest)
  | _ => []

/-- The two positional tuple shapes accepted for the `exactInput` /
`exactOutput` parameter struct: the 5-field Router ABI shape (with
`deadline`) and the 4-field Router2 ABI shape.  `amount` is `amountIn`
respectively `amountOut`; `amountBound` is `amountOutMinimum`
respectively `amountInMaximum`. -/
inductive PathCallParams where
  | routerABI (path : List Nat) (recipient : Addr) (deadline : Int)
      (amount : Int) (amountBound : Int)
  | router2ABI (path : List Nat) (recipient : Addr) (amount : Int) (amountBound : Int)
deriving DecidableEq, Repr

def PathCallParams.path : PathCallParams → List Nat
  | .routerABI p _ _ _ _ => p
  | .router2ABI p _ _ _ => p

def PathCallParams.amount : PathCallParams → Int
  | .routerABI _ _ _ a _ => a
  | .router2ABI _ _ a _ => a

/-- Whether the 4-field Router2 ABI unpack was the one that matched, in
which case the `deadline` local is never bound. -/
def PathCallParams.isRouter2ABI : PathCallParams → Bool
  | .routerABI _ _ _ _ _ => false
  | .router2ABI _ _ _ _ => true

/-- The per-triple loop of the `exactInput` branch.  The source binds
`v3_pool, swap_info, pool_state = v3_swap_exact_in(...)`, unpacking the
returned value into three names; `v3_swap_exact_in` returns a
single-element list (lemma `v3_swap_exact_in_ok_length` below), and
unpacking a one-element sequence into three targets raises
`ValueError("not enough values to unpack (expected 3, got 1)")`, so
every successfully simulated first triple ends the loop with that
error and no later iteration runs. -/
def exactInput_hops (env : V3Env) :
    List (PathSeg × PathSeg × PathSeg) → Int → Except SimError (List (V3Pool × V3PoolState))
  | [], _ => .ok []
  | (tokenIn, fee, tokenOut) :: _rest, amountIn =>
    match v3_swap_exact_in env
        (.handCrafted tokenIn.addrValue tokenOut.addrValue fee.feeValue amountIn) with
    | .error e => .error e
    | .ok _entries => .error (.valueError "not enough values to unpack (expected 3, got 1)")

/-- The per-triple loop of the `exactOutput` branch: triples are read
as (tokenOut, fee, tokenIn) because the path is encoded in reverse
economic order, and the hand-crafted params tuple is
(tokenIn, tokenOut, fee, amountOut).  It has the same three-name
unpack of `v3_swap_exact_out`'s single-element result as
`exactInput_hops`, with the same `ValueError`. -/
def exactOutput_hops (env : V3Env) :
    List (PathSeg × PathSeg × PathSeg) → Int → Except SimError (List (V3Pool × V3PoolState))
  | [], _ => .ok []
  | (tokenOut, fee, tokenIn) :: _rest, amountOut =>
    match v3_swap_exact_out env
        (.handCrafted tokenIn.addrValue tokenOut.addrValue fee.feeValue amountOut) with
    | .error e => .error e
    | .ok _entries => .error (.valueError "not enough values to unpack (expected 3, got 1)")

/-- The `exactInput` branch of `simulate`: decode the path, run the
verbose block when `silent` is false (whose guard
`if exactInputParams_deadline:` reads a local that the 4-field Router2
unpack leaves unbound, raising `NameError`), then iterate the triples
with the caller-supplied `amountIn` for the first triple. -/
def exactInput_sim (env : V3Env) (p : PathCallParams) (silent : Bool) :
    Except SimError (List (V3Pool × V3PoolState)) :=
  match decode_path p.path with
  | none => .error .outOfFuel
  | some decoded =>
    if !silent && p.isRouter2ABI then
      .error (.nameError "name exactInputParams_deadline is not defined")
    else
      exactInput_hops env (path_triples decoded) p.amount

/-- The `exactOutput` branch of `simulate`, mirroring
`exactInput_sim`: the verbose block reads `exactOutputParams_deadline`,
unbound after a Router2 unpack, and the triple loop starts from the
caller-supplied `amountOut`. -/
def exactOutput_sim (env : V3Env) (p : PathCallParams) (silent : Bool) :
    Except SimError (List (V3Pool × V3PoolState)) :=
  match decode_path p.path with
  | none => .error .outOfFuel
  | some decoded =>
    if !silent && p.isRouter2ABI then
      .error (.nameError "name exactOutputParams_deadline is not defined")
    else
      exactOutput_hops env (path_triples decoded) p.amount

/-- One element of the `future_state` list returned by `simulate`: a
pool handle paired with its predicted state, for either protocol
version. -/
inductive FutureStateEntry where
  | v2 (pool : V2Pool) (state : V2PoolState)
  | v3 (pool : V3Pool) (state : V3PoolState)
deriving DecidableEq, Repr

/-- The parameter dictionary shapes `simulate` reads, one constructor
per field layout a dispatch branch expects. -/
inductive FuncParams where
  | v2Swap (path : List Addr) (amountIn : Int) (amountOut : Int)
  | v3Single (p : V3SingleParams)
  | v3PathCall (p : PathCallParams)
  | multicallData (payloads : List Nat)
  | noParams
deriving DecidableEq, Repr

/-- The fields of a `UniswapTransaction` that the simulation core
reads: the attached native-currency value and the decoded call.  Hash,
nonce, deadline and previous block hash are stored by the constructor
but never read by `simulate`/`simulate_multicall` and are omitted. -/
structure UniswapTransaction where
  tx_value : Int
  func_name : String
  func_params : FuncParams

/-- All external collaborators: the V2 and V3 pool domains, and the
multicall payload ABI decoder.  Payloads are opaque tags.
`decode_function_input` models the source's two sequential speculative
decodes (Router ABI, then Router2 ABI), whose net effect is: `some`
when either ABI decodes the payload, `none` when both raise. -/
structure Env where
  v2 : V2Env
  v3 : V3Env
  decode_function_input : Nat → Option (String × FuncParams)

def listStartsWith : List Char → List Char → Bool
  | [], _ => true
  | _ :: _, [] => false
  | a :: as, b :: bs => a == b && listStartsWith as bs

def listContainsSub (needle : List Char) : List Char → Bool
  | [] => listStartsWith needle []
  | h :: t => listStartsWith needle (h :: t) || listContainsSub needle t

/-- Python `needle in haystack` on strings: substring containment.
The source writes `elif func_name in ("swapTokensForExactETH"):` with a
parenthesized plain string rather than a tuple, so dispatch for the
three V2 exact-out function names is substring containment in the
literal, not equality. -/
def strIsSubstring (needle haystack : String) : Bool :=
  listContainsSub needle.data haystack.data

/-- The payload loop of `simulate_multicall`.  The two speculative
decodes rebind `payload_func, payload_args` only on success, so when
both ABIs fail to decode a payload the bindings from the most recent
successfully decoded payload are silently reused (`previous`); only
when no payload has decoded yet does reading `payload_func` raise
`NameError`, which the blanket `except Exception` of the simulation
block turns into `TransactionError("Could not decode multicall")`.
Every other exception escaping the recursive `simulate` call is
wrapped by that same blanket except; modelled fuel exhaustion is kept
distinct.  Entries are accumulated in payload order. -/
def multicall_loop
    (step : String → FuncParams → Except SimError (List FutureStateEntry))
    (decode : Nat → Option (String × FuncParams)) :
    List Nat → Option (String × FuncParams) → Except SimError (List FutureStateEntry)
  | [], _ => .ok []
  | payload :: rest, previous =>
    let decoded :=
      match decode payload with
      | some fp => some fp
      | none => previous
    match decoded with
    | none => .error (.transactionError "Could not decode multicall")
    | some (payload_func, payload_args) =>
      match step payload_func payload_args with
      | .error SimError.outOfFuel => .error SimError.outOfFuel
      | .error _ => .error (.transactionError "Could not decode multicall")
      | .ok entries =>
        (multicall_loop step decode rest (some (payload_func, payload_args))).map
          (entries ++ ·)

/-- `UniswapTransaction.simulate`, dispatching on the function name
exactly in the order of the source's if-chain, together with
`simulate_multicall` (the `multicall` branch, which iterates
`self.func_params["data"]` of the transaction itself, not the
`func_params` argument).  The trailing `except (LiquidityPoolError,
ValueError)` of the source wraps any `ValueError` from a branch into
`TransactionError("Transaction could not be calculated: ...")`; other
exceptions (`TransactionError`, `NameError`, `TypeError`) propagate
unchanged.  Unknown names, the recognized-but-unimplemented names and
the no-op names all return the empty list.  The fuel bounds the
multicall recursion depth (a sub-payload decoding to `multicall`
re-enters `simulate_multicall` on the same transaction data). -/
def simulate : Nat → Env → UniswapTransaction → String → FuncParams → Bool →
    Except SimError (List FutureStateEntry)
  | 0, _, _, _, _, _ => .error .outOfFuel
  | fuel + 1, env, tx, func_name, func_params, silent =>
    let v2In (unwrapped : Bool) : Except SimError (List FutureStateEntry) :=
      match func_params with
      | .v2Swap path amountIn _ =>
        (v2_swap_exact_in env.v2 path amountIn tx.tx_value unwrapped).map
          (List.map fun pr => .v2 pr.1 pr.2)
      | _ => .error (.typeError "expected V2 swap parameters")
    let v2Out (unwrapped : Bool) : Except SimError (List FutureStateEntry) :=
      match func_params with
      | .v2Swap path _ amountOut =>
        (v2_swap_exact_out env.v2 path amountOut tx.tx_value unwrapped).map
          (List.map fun pr => .v2 pr.1 pr.2)
      | _ => .error (.typeError "expected V2 swap parameters")
    let raw : Except SimError (List FutureStateEntry) :=
      if func_name ∈ ["swapExactTokensForETH",
          "swapExactTokensForETHSupportingFeeOnTransferTokens"] then
        v2In false
      else if func_name ∈ ["swapExactETHForTokens",
          "swapExactETHForTokensSupportingFeeOnTransferTokens"] then
        v2In true
      else if func_name ∈ ["swapExactTokensForTokens",
          "swapExactTokensForTokensSupportingFeeOnTransferTokens"] then
        v2In false
      else if strIsSubstring func_name "swapTokensForExactETH" then
        v2Out false
      else if strIsSubstring func_name "swapTokensForExactTokens" then
        v2Out false
      else if strIsSubstring func_name "swapETHForExactTokens" then
        v2Out true
      else if func_name = "multicall" then
        match tx.func_params with
        | .multicallData payloads =>
          multicall_loop (fun fn ps => simulate fuel env tx fn ps silent)
            env.decode_function_input payloads none
        | _ => .error (.typeError "multicall data is not iterable")
      else if func_name = "exactInputSingle" then
        match func_params with
        | .v3Single p => (v3_swap_exact_in env.v3 p).map (List.map fun pr => .v3 pr.1 pr.2)
        | _ => .error (.typeError "expected V3 single-hop parameters")
      else if func_name = "exactInput" then
        match func_params with
        | .v3PathCall p => (exactInput_sim env.v3 p silent).map (List.map fun pr => .v3 pr.1 pr.2)
        | _ => .error (.typeError "expected V3 path parameters")
      else if func_name = "exactOutputSingle" then
        match func_params with
        | .v3Single p => (v3_swap_exact_out env.v3 p).map (List.map fun pr => .v3 pr.1 pr.2)
        | _ => .error (.typeError "expected V3 single-hop parameters")
      else if func_name = "exactOutput" then
        match func_params with
        | .v3PathCall p => (exactOutput_sim env.v3 p silent).map (List.map fun pr => .v3 pr.1 pr.2)
        | _ => .error (.typeError "expected V3 path parameters")
      else
        .ok []
    match raw with
    | .error (.valueError msg) =>
      .error (.transactionError ("Transaction could not be calculated: " ++ msg))
    | r => r

/-! Concrete pools, environments and transactions used to evaluate the
drivers on explicit inputs.  The simulator functions below play the
role of the external Pool Simulator collaborator: they return an
arbitrary but fixed hypothetical post-trade state for each query. -/

def poolAB : V2Pool := ⟨⟨"aa"⟩, ⟨"bb"⟩, ⟨1000, 1000⟩⟩

def poolBC : V2Pool := ⟨⟨"bb"⟩, ⟨"cc"⟩, ⟨2000, 2000⟩⟩

/-- V2 environment whose exact-out simulator reports a reserve increase
of 111 for pool (bb, cc) and of `quantity + 13` for pool (aa, bb). -/
def envC2 : V2Env :=
  ⟨fun pr =>
      if pr = ("aa", "bb") then some poolAB
      else if pr = ("bb", "cc") then some poolBC
      else none,
    fun pool _ _ => pool.state,
    fun pool _ qty =>
      if pool = poolBC then ⟨2111, 2000 - qty⟩
      else ⟨1000 + qty + 13, 1000 - qty⟩⟩

/-- V2 environment whose exact-in simulator makes BOTH reserves of the
queried pool decrease: (1000, 1000) becomes (990, 920). -/
def envC6 : V2Env :=
  ⟨fun pr => if pr = ("aa", "bb") then some poolAB else none,
    fun _ _ _ => ⟨990, 920⟩,
    fun pool _ _ => pool.state⟩

/-- V2 environment whose exact-in simulator makes NEITHER reserve
decrease: (1000, 1000) becomes (1000, 1005). -/
def envC6w : V2Env :=
  ⟨fun _ => some poolAB,
    fun _ _ _ => ⟨1000, 1005⟩,
    fun pool _ _ => pool.state⟩

/-- V2 environment whose exact-in simulator adds the input quantity to
reserve 0 and removes `quantity + 7` from reserve 1. -/
def envC7 : V2Env :=
  ⟨fun pr =>
      if pr = ("aa", "bb") then some poolAB
      else if pr = ("bb", "cc") then some poolBC
      else none,
    fun pool _ qty =>
      ⟨pool.state.reserves_token0 + qty, pool.state.reserves_token1 - (qty + 7)⟩,
    fun pool _ _ => pool.state⟩

def poolV3 : V3Pool := ⟨1⟩

def stateV3 : V3PoolState := ⟨7⟩

/-- V3 environment whose exact-out simulator reports reserve deltas
(150, -200): the derived required input is 150. -/
def envC1high : V3Env :=
  ⟨fun _ _ _ => some poolV3,
    fun _ _ _ => some (⟨5, -5⟩, stateV3),
    fun _ _ _ _ => some (⟨150, -200⟩, stateV3)⟩

/-- V3 environment whose exact-out simulator reports reserve deltas
(50, -60): the derived required input is 50. -/
def envC1low : V3Env :=
  ⟨fun _ _ _ => some poolV3,
    fun _ _ _ => some (⟨5, -5⟩, stateV3),
    fun _ _ _ _ => some (⟨50, -60⟩, stateV3)⟩

/-- Router-ABI exact-out single-hop parameters with
`amountOut = 10` and `amountInMaximum = 100`. -/
def paramsC1 : V3SingleParams := .routerABI "aa" "bb" 500 "recipient" 1 10 100 0

/-- A V3 environment where every resolution and simulation succeeds. -/
def envV3ok : V3Env :=
  ⟨fun _ _ _ => some poolV3,
    fun _ _ _ => some (⟨5, -5⟩, stateV3),
    fun _ _ _ _ => some (⟨60, -40⟩, stateV3)⟩

/-- A well-formed two-triple encoded path: 66 = 20 + 23 * 2 bytes. -/
def path66 : List Nat := List.replicate 66 0

/-- The decoded call carried by multicall payload 1. -/
def payloadParams : V3SingleParams := .router2ABI "aa" "bb" 500 "rr" 10 0 0

/-- Full environment: payload 1 decodes to `exactInputSingle`, every
other payload fails to decode under both router ABIs. -/
def envFull : Env :=
  ⟨envC7, envV3ok,
    fun payload =>
      if payload = 1 then some ("exactInputSingle", .v3Single payloadParams) else none⟩

def txC3 : UniswapTransaction := ⟨0, "exactInput", .noParams⟩

/-- Multicall transaction whose first payload decodes and whose second
does not. -/
def txGood : UniswapTransaction := ⟨0, "multicall", .multicallData [1, 2]⟩

/-- Multicall transaction whose first payload does not decode. -/
def txBadFirst : UniswapTransaction := ⟨0, "multicall", .multicallData [2, 1]⟩

/-- Router2-ABI `exactInput` parameters (no `deadline` field). -/
def p8 : PathCallParams := .router2ABI path66 "rr" 1000 0

/-! Helper lemmas. -/

/-- Inversion for `Except.map` returning `ok`. -/
theorem except_map_ok {ε α β : Type} (f : α → β) (e : Except ε α) (b : β)
    (h : e.map f = .ok b) : ∃ a, e = .ok a ∧ f a = b := by
  cases e with
  | error _ => exact Except.noConfusion h
  | ok a => exact ⟨a, rfl, Except.ok.inj h⟩

/-- `v3_swap_exact_in` returns a single-element list whenever it
succeeds; this is what makes the three-name unpack in the
`exactInput` branch raise `ValueError` unconditionally. -/
theorem v3_swap_exact_in_ok_length (env : V3Env) (p : V3SingleParams)
    (entries : List (V3Pool × V3PoolState))
    (h : v3_swap_exact_in env p = .ok entries) : entries.length = 1 := by
  unfold v3_swap_exact_in at h
  split at h
  · exact Except.noConfusion h
  · split at h
    · exact Except.noConfusion h
    · rw [← Except.ok.inj h]
      rfl

/-- `v3_swap_exact_out` returns a single-element list whenever it
succeeds; same role as `v3_swap_exact_in_ok_length` for the
`exactOutput` branch. -/
theorem v3_swap_exact_out_ok_length (env : V3Env) (p : V3SingleParams)
    (entries : List (V3Pool × V3PoolState))
    (h : v3_swap_exact_out env p = .ok entries) : entries.length = 1 := by
  unfold v3_swap_exact_out at h
  split at h
  · exact Except.noConfusion h
  · split at h
    · exact Except.noConfusion h
    · split at h
      · dsimp only at h
        split at h
        · exact Except.noConfusion h
        · rw [← Except.ok.inj h]
          rfl
      · rw [← Except.ok.inj h]
        rfl

/-- Once the cursor has passed the end of the byte sequence, the
decoding loop can never break: it returns `none` for every fuel. -/
theorem decode_path_loop_none_of_gt (path : List Nat) :
    ∀ (fuel path_pos : Nat) (isAddr : Bool) (acc : List PathSeg),
      path.length < path_pos →
      decode_path_loop path fuel path_pos isAddr acc = none := by
  intro fuel
  induction fuel with
  | zero => intro _ _ _ _; rfl
  | succ f ih =>
    intro path_pos isAddr acc hlt
    unfold decode_path_loop
    rw [if_neg (by omega)]
    exact ih _ _ _ (by cases isAddr <;> simp <;> omega)

/-- Structure of a successful run of the V2 exact-in loop: one hop per
pool in order, the first hop consumes the initial quantity, and every
later hop's input quantity is the previous hop's derived output
quantity. -/
theorem v2_exact_in_loop_spec (env : V2Env) :
    ∀ (pools : List V2Pool) (token_in : Erc20Token) (q : Int) (hops : List V2Hop),
      v2_exact_in_loop env pools token_in q = .ok hops →
      hops.map V2Hop.pool = pools ∧
      (∀ h0 ∈ hops.head?, h0.token_in_quantity = q) ∧
      List.Chain' (fun a b => b.token_in_quantity = a.token_out_quantity) hops := by
  intro pools
  induction pools with
  | nil =>
    intro token_in q hops h
    rw [← Except.ok.inj h]
    exact ⟨rfl, by intro h0 hh; exact Option.noConfusion hh, List.chain'_nil⟩
  | cons pool rest ih =>
    intro token_in q hops h
    unfold v2_exact_in_loop at h
    dsimp only at h
    by_cases h0 :
        (env.simulate_swap_exact_in pool token_in q).reserves_token0 <
          pool.state.reserves_token0
    · rw [if_pos h0] at h
      obtain ⟨hops', hr, hcons⟩ := except_map_ok _ _ _ h
      obtain ⟨hmap, hhead, hchain⟩ := ih _ _ _ hr
      subst hcons
      refine ⟨by simp [hmap], ?_, ?_⟩
      · intro x hx
        simp only [List.head?_cons, Option.mem_def, Option.some.injEq] at hx
        rw [← hx]
      · rw [List.chain'_cons']
        exact ⟨fun b hb => by rw [hhead b hb], hchain⟩
    · rw [if_neg h0] at h
      by_cases h1 :
          (env.simulate_swap_exact_in pool token_in q).reserves_token1 <
            pool.state.reserves_token1
      · rw [if_pos h1] at h
        obtain ⟨hops', hr, hcons⟩ := except_map_ok _ _ _ h
        obtain ⟨hmap, hhead, hchain⟩ := ih _ _ _ hr
        subst hcons
        refine ⟨by simp [hmap], ?_, ?_⟩
        · intro x hx
          simp only [List.head?_cons, Option.mem_def, Option.some.injEq] at hx
          rw [← hx]
        · rw [List.chain'_cons']
          exact ⟨fun b hb => by rw [hhead b hb], hchain⟩
      · rw [if_neg h1] at h
        exact Except.noConfusion h

/-! Claim theorems. -/

/-- C1: the source's slippage check in `v3_swap_exact_out` is inverted.
With `amountInMaximum = 100` and simulator deltas (150, -200) the
derived required input is 150, which exceeds the bound, yet the
simulation succeeds; with deltas (50, -60) the derived input 50 is
within the bound, yet the simulation fails with the slippage
`TransactionError`.  The claim requires the opposite behavior in both
cases. -/
theorem slippage_check_inverted :
    v3_swap_exact_out envC1high paramsC1 = .ok [(poolV3, stateV3)] ∧
    v3_swap_exact_out envC1low paramsC1 =
      .error (.transactionError "amountIn < amountOutMin") ∧
    v3_amountIn ⟨150, -200⟩ = 150 ∧ v3_amountIn ⟨50, -60⟩ = 50 :=
  ⟨rfl, rfl, rfl, rfl⟩

/-- C2: the V2 exact-out driver does process pools in reverse path
order, but it does not thread the derived input backward: for the
2-hop path aa→bb→cc with final output 100, both hops receive
output target 100 (the original `amountOut`), while the derived input
computed for pool (bb, cc) is 111.  The claim requires pool (aa, bb)
to receive 111. -/
theorem exact_out_no_backward_threading :
    (v2_swap_exact_out_hops envC2 ["aa", "bb", "cc"] 100 0 false).map
        (List.map V2Hop.pool) = .ok [poolBC, poolAB] ∧
    (v2_swap_exact_out_hops envC2 ["aa", "bb", "cc"] 100 0 false).map
        (List.map V2Hop.token_out_quantity) = .ok [100, 100] ∧
    (v2_swap_exact_out_hops envC2 ["aa", "bb", "cc"] 100 0 false).map
        (List.map V2Hop.token_in_quantity) = .ok [111, 113] ∧
    (100 : Int) ≠ 111 :=
  ⟨rfl, rfl, rfl, by decide⟩

/-- C6 counterexample: on an exact-in hop where BOTH reserves decrease
((1000, 1000) to (990, 920)), the driver does not raise the
direction-ambiguity error: it silently picks the token0 decrease (10)
and succeeds.  The claim requires this simulator response to be
rejected. -/
theorem both_reserves_decrease_not_rejected :
    v2_swap_exact_in_hops envC6 ["aa", "bb"] 5 0 false =
      .ok [⟨poolAB, ⟨"aa"⟩, 5, ⟨"bb"⟩, 10, ⟨990, 920⟩⟩] ∧
    ∀ e : SimError,
      v2_swap_exact_in_hops envC6 ["aa", "bb"] 5 0 false ≠ .error e :=
  ⟨rfl, fun _ h => Except.noConfusion h⟩

/-- C6 amended: a V2 exact-in hop is rejected with the
direction-ambiguity `ValueError` exactly when NEITHER reserve
decreases (covering the both-increase and both-equal cases); when both
reserves decrease the driver silently takes the token0 decrease as the
output instead of rejecting. -/
theorem ambiguity_rejected_iff_neither_decreases (env : V2Env) (pool : V2Pool)
    (rest : List V2Pool) (token_in : Erc20Token) (q : Int)
    (h0 : pool.state.reserves_token0 ≤
      (env.simulate_swap_exact_in pool token_in q).reserves_token0)
    (h1 : pool.state.reserves_token1 ≤
      (env.simulate_swap_exact_in pool token_in q).reserves_token1) :
    v2_exact_in_loop env (pool :: rest) token_in q =
      .error (.valueError "Swap direction could not be identified") := by
  unfold v2_exact_in_loop
  dsimp only
  rw [if_neg (by omega), if_neg (by omega)]

/-- Witness for `ambiguity_rejected_iff_neither_decreases` at a
concrete environment where reserve 0 stays equal and reserve 1
increases. -/
theorem ambiguity_rejected_witness :
    v2_exact_in_loop envC6w [poolAB] ⟨"aa"⟩ 5 =
      .error (.valueError "Swap direction could not be identified") :=
  ambiguity_rejected_iff_neither_decreases envC6w poolAB [] ⟨"aa"⟩ 5
    (by decide) (by decide)

/-- C7: in any successful V2 exact-in run, one entry is produced per
resolved pool in path order, the first hop consumes the caller's
quantity (the transaction value when `unwrapped_input` is set,
otherwise `amountIn`), and each later hop's input quantity equals the
previous hop's derived output quantity. -/
theorem exact_in_threading (env : V2Env) (path : List Addr)
    (amountIn tx_value : Int) (unwrapped_input : Bool) (hops : List V2Hop)
    (h : v2_swap_exact_in_hops env path amountIn tx_value unwrapped_input = .ok hops) :
    v2_swap_exact_in env path amountIn tx_value unwrapped_input =
        .ok (hops.map fun hp => (hp.pool, hp.future_state)) ∧
    resolve_pools env (pairwise path) = .ok (hops.map V2Hop.pool) ∧
    (∀ h0 ∈ hops.head?,
        h0.token_in_quantity = if unwrapped_input then tx_value else amountIn) ∧
    List.Chain' (fun a b => b.token_in_quantity = a.token_out_quantity) hops := by
  have hb := h
  unfold v2_swap_exact_in_hops at hb
  cases hr : resolve_pools env (pairwise path) with
  | error e =>
    rw [hr] at hb
    exact Except.noConfusion hb
  | ok pools =>
    rw [hr] at hb
    simp only [Bind.bind, Except.bind] at hb
    obtain ⟨hmap, hhead, hchain⟩ := v2_exact_in_loop_spec env pools _ _ hops hb
    refine ⟨?_, ?_, hhead, hchain⟩
    · unfold v2_swap_exact_in
      rw [h]
      rfl
    · rw [hmap]

/-- Witness for `exact_in_threading` on the concrete two-hop path
aa→bb→cc under `envC7`. -/
theorem exact_in_threading_witness :
    List.Chain' (fun a b : V2Hop => b.token_in_quantity = a.token_out_quantity)
      [⟨poolAB, ⟨"aa"⟩, 50, ⟨"bb"⟩, 57, ⟨1050, 943⟩⟩,
       ⟨poolBC, ⟨"bb"⟩, 57, ⟨"cc"⟩, 64, ⟨2057, 1936⟩⟩] :=
  (exact_in_threading envC7 ["aa", "bb", "cc"] 50 0 false
    [⟨poolAB, ⟨"aa"⟩, 50, ⟨"bb"⟩, 57, ⟨1050, 943⟩⟩,
     ⟨poolBC, ⟨"bb"⟩, 57, ⟨"cc"⟩, 64, ⟨2057, 1936⟩⟩] rfl).2.2.2

/-- C9 counterexample: the source derives the implied input as the
SIGNED maximum of the two deltas, not the delta larger in magnitude.
For deltas (50, -150) the source yields 50 while the larger-in-
magnitude delta is -150 (magnitude 150). -/
theorem signed_max_vs_larger_magnitude :
    v3_amountIn ⟨50, -150⟩ = 50 ∧
    v3_amountIn_spec_larger_magnitude ⟨50, -150⟩ = -150 ∧
    (50 : Int) ≠ -150 ∧ (50 : Int) ≠ 150 :=
  ⟨by decide, by decide, by decide, by decide⟩

/-- C9 amended: whenever exactly one delta is positive (the normal
exact-out shape: one token enters, the other leaves), the derived
input is the positive incoming delta, regardless of magnitudes; in
particular when the outgoing delta has strictly larger magnitude the
source's derivation differs from the spec's larger-in-magnitude
rule. -/
theorem amountIn_is_signed_max (a0 a1 : Int) (h : a1 ≤ 0) (h0 : 0 < a0) :
    v3_amountIn ⟨a0, a1⟩ = a0 ∧
    (a0.natAbs < a1.natAbs →
      v3_amountIn ⟨a0, a1⟩ ≠ v3_amountIn_spec_larger_magnitude ⟨a0, a1⟩) := by
  have hmax : v3_amountIn ⟨a0, a1⟩ = a0 := max_eq_left (h.trans h0.le)
  refine ⟨hmax, fun hm => ?_⟩
  unfold v3_amountIn_spec_larger_magnitude
  dsimp only
  rw [if_neg (by omega), hmax]
  omega

/-- Witness for `amountIn_is_signed_max` at deltas (50, -150). -/
theorem amountIn_is_signed_max_witness :
    v3_amountIn ⟨50, -150⟩ = 50 ∧
    ((50 : Int).natAbs < (-150 : Int).natAbs →
      v3_amountIn ⟨50, -150⟩ ≠ v3_amountIn_spec_larger_magnitude ⟨50, -150⟩) :=
  amountIn_is_signed_max 50 (-150) (by decide) (by decide)

/-- C10: the V2 exact-out driver reads the transaction's attached
value into a local when `unwrapped_input` is set but never uses it
(the slippage check against it is commented out in the source), so
the result is identical for any two attached values and an
insufficient attached value is never detected. -/
theorem exact_out_ignores_tx_value (env : V2Env) (path : List Addr)
    (amountOut value1 value2 : Int) :
    v2_swap_exact_out_hops env path amountOut value1 true =
        v2_swap_exact_out_hops env path amountOut value2 true ∧
    v2_swap_exact_out env path amountOut value1 true =
        v2_swap_exact_out env path amountOut value2 true :=
  ⟨rfl, rfl⟩

/-- C5: the source raises no MalformedPath error for any input.  A
21-byte sequence (length neither `20 + 23k` nor `23k`) makes the
decoding loop run forever: the cursor jumps past the end and the break
condition can never hold, so the loop returns no result for ANY fuel.
A 23-byte sequence, whose length is also not of the form `20 + 23k`,
is silently decoded into one address and one fee with no error.  For a
well-formed 43-byte path (`20 + 23 * 1`) the decoder terminates with
the alternating address/fee/address list, as the claim states. -/
theorem path_decoder_never_raises_malformed :
    (∀ fuel, decode_path_with_fuel (List.replicate 21 0) fuel = none) ∧
    decode_path (List.replicate 23 17) =
      some [PathSeg.address (bytesHex (List.replicate 20 17)),
            PathSeg.fee (bytesBE (List.replicate 3 17))] ∧
    decode_path (List.replicate 43 1) =
      some [PathSeg.address (bytesHex (List.replicate 20 1)),
            PathSeg.fee (bytesBE (List.replicate 3 1)),
            PathSeg.address (bytesHex (List.replicate 20 1))] := by
  refine ⟨?_, rfl, rfl⟩
  intro fuel
  rcases fuel with _ | _ | _ | n
  · rfl
  · rfl
  · rfl
  · calc decode_path_with_fuel (List.replicate 21 0) (n + 3)
        = decode_path_loop (List.replicate 21 0) n 43 false
            [PathSeg.address (bytesHex ((List.replicate 21 (0 : Nat)).take 20))] := rfl
      _ = none := decode_path_loop_none_of_gt _ _ _ _ _ (by simp)

/-- C3: every encoded-path simulation with at least one triple fails:
the source unpacks the single-hop driver's one-element return list
into three names, raising the unpack `ValueError`, which the trailing
except-clause wraps into `TransactionError`.  Evaluated here on a
well-formed 66-byte (two-triple) path for both `exactInput` and
`exactOutput`; no Future State Entries are ever produced. -/
theorem encoded_path_unpack_always_fails :
    simulate 5 envFull txC3 "exactInput"
        (.v3PathCall (.routerABI path66 "rr" 1 1000 0)) true =
      .error (.transactionError
        "Transaction could not be calculated: not enough values to unpack (expected 3, got 1)") ∧
    simulate 5 envFull txC3 "exactOutput"
        (.v3PathCall (.routerABI path66 "rr" 1 1000 0)) true =
      .error (.transactionError
        "Transaction could not be calculated: not enough values to unpack (expected 3, got 1)") :=
  ⟨rfl, rfl⟩

/-- C4: a malformed payload does NOT always fail the multicall.  When
the malformed payload follows a decodable one, the stale
`payload_func`/`payload_args` bindings of the previous payload are
silently reused: the batch [decodable, malformed] succeeds and returns
the first payload's entry twice.  Only when the malformed payload
comes first (no stale bindings exist) does the multicall fail with
`TransactionError`. -/
theorem multicall_stale_decode_reuse :
    simulate 5 envFull txGood "multicall" (.multicallData [1, 2]) true =
      .ok [.v3 poolV3 stateV3, .v3 poolV3 stateV3] ∧
    simulate 5 envFull txBadFirst "multicall" (.multicallData [2, 1]) true =
      .error (.transactionError "Could not decode multicall") :=
  ⟨rfl, rfl⟩

/-- C8: the silent flag is not logging-only.  For `exactInput`
parameters decoded by the Router2 ABI (no `deadline` field), the
verbose block's guard `if exactInputParams_deadline:` reads an unbound
local: with `silent = False` the simulation dies with `NameError`,
while with `silent = True` it proceeds and fails with the (different)
unpack `TransactionError`, so the two runs do not fail with the same
error. -/
theorem silent_flag_semantic_effect :
    simulate 5 envFull txC3 "exactInput" (.v3PathCall p8) false =
      .error (.nameError "name exactInputParams_deadline is not defined") ∧
    simulate 5 envFull txC3 "exactInput" (.v3PathCall p8) true =
      .error (.transactionError
        "Transaction could not be calculated: not enough values to unpack (expected 3, got 1)") ∧
    (SimError.nameError "name exactInputParams_deadline is not defined" ≠
      SimError.transactionError
        "Transaction could not be calculated: not enough values to unpack (expected 3, got 1)") :=
  ⟨rfl, rfl, fun h => SimError.noConfusion h⟩

end Degenbot
